import Mathlib

/-!
Verification of the PreSonus Plug-In Extensions headers (`ipslsoundvariation.h`,
`ipslinstrumentcontroller.h`, `ipslviewrendering.h`).

The headers define plain-old-data structures with inline methods plus abstract
interfaces.  We embed the data model shallowly: C++ `int` / `int32` fields become
`Int` with explicit two's-complement range side conditions where they cross the
wire, `uint16`/`uint32`/pointer-sized fields become `Nat`, fixed C arrays become
total maps `Int → α` indexed by the `count` cursor, and the two binary wire
layouts become little-endian byte-list codecs.  Floating-point fields
(`velocity : float`, `ppqPosition : double`) are carried as their raw bit
patterns (`Nat`), which is faithful for everything proved here: the code only
stores and copies them.
-/

namespace Presonus

/-! ## Little-endian byte encoding helpers -/

/-- Serialize the low `w` bytes of `v`, least significant byte first. -/
def toBytesLE : Nat → Nat → List Nat
  | 0, _ => []
  | w + 1, v => v % 256 :: toBytesLE w (v / 256)

/-- Read back a little-endian byte list as a natural number. -/
def fromBytesLE : List Nat → Nat
  | [] => 0
  | b :: rest => b + 256 * fromBytesLE rest

/-- Encode a signed 32-bit value (Steinberg::int32) as 4 little-endian bytes of
its two's-complement representation. -/
def encInt32 (v : Int) : List Nat := toBytesLE 4 (v % 4294967296).toNat

/-- Decode 4 little-endian bytes as a signed 32-bit value. -/
def decInt32 (bs : List Nat) : Int :=
  let n := fromBytesLE bs
  if n < 2147483648 then (n : Int) else (n : Int) - 4294967296

/-! ## Wire event records (ipslsoundvariation.h, Vst3SoundVariationEvent /
Vst2SoundVariationEvent) -/

/-- Value of a two-character C literal such as `'VE'`: first character in the
high byte, as produced by the compilers the SDK targets. -/
def charTag2 (a b : Char) : Nat := a.toNat * 256 + b.toNat

/-- Value of a four-character C literal such as `'PSVE'`. -/
def charTag4 (a b c d : Char) : Nat :=
  ((a.toNat * 256 + b.toNat) * 256 + c.toNat) * 256 + d.toNat

/-- VST3 sound variation event, `struct Vst3SoundVariationEvent`.
`ppqPosition : Steinberg::Vst::TQuarterNotes` is a `double`; we carry its
IEEE-754 bit pattern. `flags` and `type` are `uint16`. -/
@[ext]

structure Vst3SoundVariationEvent where
  busIndex : Int
  sampleOffset : Int
  ppqPosition : Nat
  flags : Nat
  type : Nat
  channel : Int
  variationId : Int
deriving DecidableEq, Repr

namespace Vst3SoundVariationEvent

/-- `static const Steinberg::int16 kTypeId = 'VE'` — activate sound variation. -/
def kTypeId : Nat := charTag2 'V' 'E'

/-- `static const Steinberg::int16 kTerminateTypeId = 'VT'` — terminate
momentary sound variation. -/
def kTerminateTypeId : Nat := charTag2 'V' 'T'

end Vst3SoundVariationEvent

/-- VST2 sound variation event, `struct Vst2SoundVariationEvent`.
All six fields are `int32`. -/
@[ext]

structure Vst2SoundVariationEvent where
  type : Int
  byteSize : Int
  deltaFrames : Int
  flags : Int
  channel : Int
  variationId : Int
deriving DecidableEq, Repr

namespace Vst2SoundVariationEvent

/-- `static const Steinberg::int32 kTypeId = 'PSVE'` — activate sound variation. -/
def kTypeId : Int := (charTag4 'P' 'S' 'V' 'E' : Int)

/-- `static const Steinberg::int32 kTerminateTypeId = 'PSVT'` — terminate
momentary sound variation. -/
def kTerminateTypeId : Int := (charTag4 'P' 'S' 'V' 'T' : Int)

/-- Documented value of the `byteSize` field:
`sizeof(Vst2SoundVariationEvent) - 2 * sizeof(VstInt32)` = 24 − 8 = 16
(the four payload fields after the `type`/`byteSize` header). -/
def kExpectedByteSize : Int := 6 * 4 - 2 * 4

end Vst2SoundVariationEvent

/-- Legal field assignment for a V3 event: every `int32` in two's-complement
range, both `uint16` fields below 2^16, the bit pattern of the `double` below
2^64, and the `type` holding one of the two defined tags. -/
def LegalV3 (e : Vst3SoundVariationEvent) : Prop :=
  -2147483648 ≤ e.busIndex ∧ e.busIndex < 2147483648 ∧
  -2147483648 ≤ e.sampleOffset ∧ e.sampleOffset < 2147483648 ∧
  e.ppqPosition < 18446744073709551616 ∧
  e.flags < 65536 ∧
  (e.type = Vst3SoundVariationEvent.kTypeId ∨
   e.type = Vst3SoundVariationEvent.kTerminateTypeId) ∧
  -2147483648 ≤ e.channel ∧ e.channel < 2147483648 ∧
  -2147483648 ≤ e.variationId ∧ e.variationId < 2147483648

instance (e : Vst3SoundVariationEvent) : Decidable (LegalV3 e) := by
  unfold LegalV3; infer_instance

/-- Legal field assignment for a V2 event: every `int32` in range, `type` one
of the two defined tags, `byteSize` the documented payload size. -/
def LegalV2 (e : Vst2SoundVariationEvent) : Prop :=
  (e.type = Vst2SoundVariationEvent.kTypeId ∨
   e.type = Vst2SoundVariationEvent.kTerminateTypeId) ∧
  e.byteSize = Vst2SoundVariationEvent.kExpectedByteSize ∧
  -2147483648 ≤ e.deltaFrames ∧ e.deltaFrames < 2147483648 ∧
  -2147483648 ≤ e.flags ∧ e.flags < 2147483648 ∧
  -2147483648 ≤ e.channel ∧ e.channel < 2147483648 ∧
  -2147483648 ≤ e.variationId ∧ e.variationId < 2147483648

instance (e : Vst2SoundVariationEvent) : Decidable (LegalV2 e) := by
  unfold LegalV2; infer_instance

/-- Serialize a V3 event in declaration order: busIndex, sampleOffset,
ppqPosition, flags, type, channel, variationId (28 bytes, little-endian,
no padding between the declared fields). -/
def encodeV3 (e : Vst3SoundVariationEvent) : List Nat :=
  encInt32 e.busIndex ++ encInt32 e.sampleOffset ++
  toBytesLE 8 e.ppqPosition ++ toBytesLE 2 e.flags ++ toBytesLE 2 e.type ++
  encInt32 e.channel ++ encInt32 e.variationId

/-- Deserialize a V3 event: read each field at its declared offset, accept
only the two defined type tags (unknown tags are ignored). -/
def decodeV3 (bs : List Nat) : Option Vst3SoundVariationEvent :=
  if bs.length = 28 then
    let ty := fromBytesLE ((bs.drop 18).take 2)
    if ty = Vst3SoundVariationEvent.kTypeId ∨
       ty = Vst3SoundVariationEvent.kTerminateTypeId then
      some { busIndex := decInt32 (bs.take 4)
             sampleOffset := decInt32 ((bs.drop 4).take 4)
             ppqPosition := fromBytesLE ((bs.drop 8).take 8)
             flags := fromBytesLE ((bs.drop 16).take 2)
             type := ty
             channel := decInt32 ((bs.drop 20).take 4)
             variationId := decInt32 ((bs.drop 24).take 4) }
    else none
  else none

/-- Serialize a V2 event in declaration order: type, byteSize, deltaFrames,
flags, channel, variationId (24 bytes, little-endian). -/
def encodeV2 (e : Vst2SoundVariationEvent) : List Nat :=
  encInt32 e.type ++ encInt32 e.byteSize ++ encInt32 e.deltaFrames ++
  encInt32 e.flags ++ encInt32 e.channel ++ encInt32 e.variationId

/-- Declared payload size of a serialized V2 event: the `byteSize` field at
offset 4, clamped to ℕ. -/
def declaredV2 (bs : List Nat) : Nat := (decInt32 ((bs.drop 4).take 4)).toNat

/-- Deserialize a V2 event.  Reads the 8-byte header (type tag, byteSize),
then parses the payload fields exclusively from the `byteSize` bytes that
follow the header — never beyond the declared size.  Unknown type tags and
payloads shorter than the four declared fields are ignored. -/
def decodeV2 (bs : List Nat) : Option Vst2SoundVariationEvent :=
  if 8 ≤ bs.length then
    let ty := decInt32 (bs.take 4)
    let sz := decInt32 ((bs.drop 4).take 4)
    if ty = Vst2SoundVariationEvent.kTypeId ∨
       ty = Vst2SoundVariationEvent.kTerminateTypeId then
      let payload := (bs.drop 8).take sz.toNat
      if 16 ≤ payload.length then
        some { type := ty
               byteSize := sz
               deltaFrames := decInt32 (payload.take 4)
               flags := decInt32 ((payload.drop 4).take 4)
               channel := decInt32 ((payload.drop 8).take 4)
               variationId := decInt32 ((payload.drop 12).take 4) }
      else none
    else none
  else none

/-- Concrete V3 activation event used as layout witness. -/
def witnessEventV3 : Vst3SoundVariationEvent :=
  { busIndex := 2, sampleOffset := 100, ppqPosition := 0x3FF0000000000000,
    flags := 1, type := Vst3SoundVariationEvent.kTypeId, channel := -1,
    variationId := -2147483648 }

/-- Concrete V2 activation event used as layout witness. -/
def witnessEventV2 : Vst2SoundVariationEvent :=
  { type := Vst2SoundVariationEvent.kTypeId,
    byteSize := Vst2SoundVariationEvent.kExpectedByteSize,
    deltaFrames := 64, flags := 0, channel := 15, variationId := 2147483647 }

/-! ## SoundActivationSequence and ScoreSymbolList (ipslsoundvariation.h) -/

/-- `SoundActivationSequenceItem::Note`.  `velocity : float` is carried as its
IEEE-754 single bit pattern; the code only stores it. -/
structure SoundActivationSequenceItem.Note where
  pitch : Int
  velocity : Nat
deriving DecidableEq, Repr

/-- Bit pattern of `1.f`, the default velocity of `Note`. -/
def floatOne : Nat := 0x3F800000

/-- `Note (Pitch p = 0, float v = 1.f)` default constructor. -/
def SoundActivationSequenceItem.Note.mkDefault : SoundActivationSequenceItem.Note :=
  { pitch := 0, velocity := floatOne }

/-- `SoundActivationSequenceItem::Controller`. -/
structure SoundActivationSequenceItem.Controller where
  number : Int
  value : Int
deriving DecidableEq, Repr

/-- `SoundActivationSequenceItem::ProgramChange`. -/
structure SoundActivationSequenceItem.ProgramChange where
  value : Int
deriving DecidableEq, Repr

/-- The anonymous union inside `SoundActivationSequenceItem`: at any time one
of the three member kinds is the active one. -/
inductive SoundActivationSequenceItem.Payload where
  | note (n : SoundActivationSequenceItem.Note)
  | controller (c : SoundActivationSequenceItem.Controller)
  | programChange (p : SoundActivationSequenceItem.ProgramChange)
deriving DecidableEq, Repr

/-- One item of a sound activation sequence: a `type` tag (`ItemTypes` value,
a plain C++ `int`) plus the union payload. -/
structure SoundActivationSequenceItem where
  type : Int
  payload : SoundActivationSequenceItem.Payload
deriving DecidableEq, Repr

namespace SoundActivationSequenceItem

/-- `kNoteEvent = 0` — host should send a note-on followed by note-off. -/
def kNoteEvent : Int := 0

/-- `kNoteOnEvent = 1`. -/
def kNoteOnEvent : Int := 1

/-- `kNoteOffEvent = 2`. -/
def kNoteOffEvent : Int := 2

/-- `kControlEvent = 3`. -/
def kControlEvent : Int := 3

/-- `kProgramChange = 4`. -/
def kProgramChange : Int := 4

/-- `SoundActivationSequenceItem (): type (kNoteEvent), note (0)` default
constructor: a note event with pitch 0 and default velocity 1.f. -/
def mkDefault : SoundActivationSequenceItem :=
  { type := kNoteEvent, payload := .note { pitch := 0, velocity := floatOne } }

end SoundActivationSequenceItem

/-- `struct SoundActivationSequence`: a `count` cursor (C++ `int`) and a fixed
array of `kMaxItems` items, modelled as a total map from indices; only slots
`0 ≤ i < count` are meaningful. -/
structure SoundActivationSequence where
  count : Int
  items : Int → SoundActivationSequenceItem

namespace SoundActivationSequence

/-- `static const int kMaxItems = 8`. -/
def kMaxItems : Int := 8

/-- `static int getMaxItems () { return kMaxItems; }` -/
def getMaxItems : Int := kMaxItems

/-- `SoundActivationSequence (): count (0)` — the array slots hold
default-constructed items. -/
def mkDefault : SoundActivationSequence :=
  { count := 0, items := fun _ => SoundActivationSequenceItem.mkDefault }

/-- `void clear () { count = 0; }` -/
def clear (s : SoundActivationSequence) : SoundActivationSequence :=
  { s with count := 0 }

/-- `addItem`: `if(count < kMaxItems) items[count++] = item;` -/
def addItem (s : SoundActivationSequence) (item : SoundActivationSequenceItem) :
    SoundActivationSequence :=
  if s.count < kMaxItems then
    { count := s.count + 1
      items := fun j => if j = s.count then item else s.items j }
  else s

/-- `addNote`: writes `items[count].type = type` then `items[count++].note = note`. -/
def addNote (s : SoundActivationSequence) (note : SoundActivationSequenceItem.Note)
    (type : Int := SoundActivationSequenceItem.kNoteEvent) :
    SoundActivationSequence :=
  if s.count < kMaxItems then
    { count := s.count + 1
      items := fun j => if j = s.count then { type := type, payload := .note note }
               else s.items j }
  else s

/-- `addController`: writes `items[count].type = kControlEvent` then
`items[count++].controller = controller`. -/
def addController (s : SoundActivationSequence)
    (controller : SoundActivationSequenceItem.Controller) :
    SoundActivationSequence :=
  if s.count < kMaxItems then
    { count := s.count + 1
      items := fun j => if j = s.count then
                 { type := SoundActivationSequenceItem.kControlEvent
                   payload := .controller controller }
               else s.items j }
  else s

/-- `addProgramChange`: writes `items[count].type = kProgramChange` then
`items[count++].programChange = ProgramChange (value)`. -/
def addProgramChange (s : SoundActivationSequence) (value : Int) :
    SoundActivationSequence :=
  if s.count < kMaxItems then
    { count := s.count + 1
      items := fun j => if j = s.count then
                 { type := SoundActivationSequenceItem.kProgramChange
                   payload := .programChange { value := value } }
               else s.items j }
  else s

end SoundActivationSequence

/-- `struct ScoreSymbolList`: a `count` cursor (C++ `int`) and a fixed array
of `kMaxItems` 32-bit `ScoreSymbolID`s, modelled as a total map. -/
structure ScoreSymbolList where
  count : Int
  symbols : Int → Nat

namespace ScoreSymbolList

/-- `static const int kMaxItems = 4`. -/
def kMaxItems : Int := 4

/-- `static int getMaxItems () { return kMaxItems; }` -/
def getMaxItems : Int := kMaxItems

/-- `ScoreSymbolList (): count (0)` — the array slots hold zero-initialized
symbol ids in our model. -/
def mkDefault : ScoreSymbolList := { count := 0, symbols := fun _ => 0 }

/-- `void clear () { count = 0; }` -/
def clear (l : ScoreSymbolList) : ScoreSymbolList := { l with count := 0 }

/-- `addSymbol`: `if(count < kMaxItems) symbols[count++] = symbol;` -/
def addSymbol (l : ScoreSymbolList) (symbol : Nat) : ScoreSymbolList :=
  if l.count < kMaxItems then
    { count := l.count + 1
      symbols := fun j => if j = l.count then symbol else l.symbols j }
  else l

end ScoreSymbolList

/-- Full sequence used as overflow witness: eight default items added to the
default-constructed sequence. -/
def fullSequence : SoundActivationSequence :=
  (((((((SoundActivationSequence.mkDefault.addItem
    SoundActivationSequenceItem.mkDefault).addItem
    SoundActivationSequenceItem.mkDefault).addItem
    SoundActivationSequenceItem.mkDefault).addItem
    SoundActivationSequenceItem.mkDefault).addItem
    SoundActivationSequenceItem.mkDefault).addItem
    SoundActivationSequenceItem.mkDefault).addItem
    SoundActivationSequenceItem.mkDefault).addItem
    SoundActivationSequenceItem.mkDefault

/-- Full symbol list used as overflow witness: four symbols ('stac',
'tenu', 'acce', 'slur') added to the default-constructed list. -/
def fullSymbolList : ScoreSymbolList :=
  (((ScoreSymbolList.mkDefault.addSymbol (charTag4 's' 't' 'a' 'c')).addSymbol
    (charTag4 't' 'e' 'n' 'u')).addSymbol
    (charTag4 'a' 'c' 'c' 'e')).addSymbol
    (charTag4 's' 'l' 'u' 'r')

/-- Count invariant of `SoundActivationSequence`: the cursor stays within the
fixed array, `0 ≤ count ≤ kMaxItems`. -/
def SoundActivationSequence.CountInv (s : SoundActivationSequence) : Prop :=
  0 ≤ s.count ∧ s.count ≤ SoundActivationSequence.kMaxItems

/-- Count invariant of `ScoreSymbolList`: `0 ≤ count ≤ kMaxItems`. -/
def ScoreSymbolList.CountInv (l : ScoreSymbolList) : Prop :=
  0 ≤ l.count ∧ l.count ≤ ScoreSymbolList.kMaxItems

/-! ## Result codes and capability queries (funknown.h values,
ISoundVariationController from ipslsoundvariation.h) -/

/-- `Steinberg::kResultOk` (non-COM funknown.h value 0; the COM variant
differs numerically but the three codes used here stay pairwise distinct). -/
def kResultOk : Int := 0

/-- `Steinberg::kResultTrue` — same value as `kResultOk`. -/
def kResultTrue : Int := 0

/-- `Steinberg::kResultFalse`. -/
def kResultFalse : Int := 1

/-- `Steinberg::kNotImplemented`. -/
def kNotImplemented : Int := 3

/-- `Steinberg::TBool` is an `int8` used as a boolean: `false` is 0 and true
is any nonzero value.  funknown.h defines no third sentinel for it, so the
information a conforming caller can extract from a returned TBool is exactly
one bit; we model that observable value set. -/
abbrev TBool := Bool

/-- The three answers a capability query would need to deliver according to
the specification: feature not implemented, implemented but answered in the
negative, answered in the affirmative. -/
inductive CapabilityTriState where
  | notImplemented
  | rejectedAnswer
  | affirmedAnswer
deriving DecidableEq, Fintype, Repr

/-- Signature of `ISoundVariationController` (all methods pure virtual — only
the declared types exist in the source).  The per-unit info pointer is
modelled as an optional opaque token; the three capability queries
`isSoundVariationEventSupported`, `isDisableKeySwitchesSupported` and
`areKeySwitchesDisabled` are declared returning `TBool`, while
`disableKeySwitches` returns a `tresult`. -/
structure ISoundVariationController where
  getSoundVariationInfo : Int → Int → Option Unit
  isSoundVariationEventSupported : Unit → TBool
  isDisableKeySwitchesSupported : Unit → TBool
  disableKeySwitches : TBool → Int
  areKeySwitchesDisabled : Unit → TBool

/-! ## Change notifications (ISoundVariationObserver from
ipslsoundvariation.h, IInstrumentObserver from ipslinstrumentcontroller.h) -/

namespace ISoundVariationObserver

/-- `ChangeMessage::kPresetChanged = 0`. -/
def kPresetChanged : Int := 0

/-- `ChangeMessage::kVariationListModified = 1`. -/
def kVariationListModified : Int := 1

/-- `ChangeMessage::kActiveVariationChanged = 2`. -/
def kActiveVariationChanged : Int := 2

end ISoundVariationObserver

/-- The complete argument payload of
`ISoundVariationObserver::onSoundVariationsChanged (int32 changeMessage)`:
one change category, nothing else. -/
structure SoundVariationChangeNotification where
  changeMessage : Int
deriving DecidableEq, Repr

/-- The complete argument payload of
`IInstrumentObserver::onInstrumentInfoChanged (int32 changeMessage,
int32 busIndex = -1, int16 channel = -1)`: a change category plus a
(busIndex, channel) unit scope. -/
structure InstrumentChangeNotification where
  changeMessage : Int
  busIndex : Int
  channel : Int
deriving DecidableEq, Repr

/-- Calling `onInstrumentInfoChanged` with the scope omitted: the C++ default
arguments fill in busIndex = −1, channel = −1 ("valid for all units"). -/
def mkInstrumentChangeNotification (changeMessage : Int) :
    InstrumentChangeNotification :=
  { changeMessage := changeMessage, busIndex := -1, channel := -1 }

/-! ## BitmapLockScope (ipslviewrendering.h) -/

/-- `kPixelFormatRGBA = 'RGBA'`. -/
def kPixelFormatRGBA : Int := (charTag4 'R' 'G' 'B' 'A' : Int)

/-- `struct BitmapPixelBuffer`; `scan0 : void*` is modelled as an address
with 0 = nullptr. -/
structure BitmapPixelBuffer where
  width : Int
  height : Int
  format : Int
  rowBytes : Int
  scan0 : Nat

/-- Member-initializer defaults of `BitmapPixelBuffer`. -/
def BitmapPixelBuffer.mkDefault : BitmapPixelBuffer :=
  { width := 0, height := 0, format := kPixelFormatRGBA, rowBytes := 0,
    scan0 := 0 }

/-- `IBitmapAccessor`: lock/unlock of the pixel buffer.  Each method takes
the buffer it may write through and returns the `tresult` together with the
buffer contents after the call. -/
structure IBitmapAccessor where
  lockPixelBuffer : BitmapPixelBuffer → Int × BitmapPixelBuffer
  unlockPixelBuffer : BitmapPixelBuffer → Int × BitmapPixelBuffer

/-- Calls a `BitmapLockScope` can make on its accessor. -/
inductive BitmapAccessorCall where
  | lockPixelBuffer
  | unlockPixelBuffer
deriving DecidableEq, Repr

/-- `struct BitmapLockScope` members. -/
structure BitmapLockScope where
  accessor : Option IBitmapAccessor
  data : BitmapPixelBuffer
  result : Int

/-- The `BitmapLockScope` constructor: `result` starts as `kResultFalse`;
only a non-null accessor is asked to lock, and then `result` becomes the
lock call's return value.  The second component is the trace of accessor
calls made. -/
def bitmapLockScopeCtor (accessor : Option IBitmapAccessor) :
    BitmapLockScope × List BitmapAccessorCall :=
  match accessor with
  | none => (⟨none, BitmapPixelBuffer.mkDefault, kResultFalse⟩, [])
  | some a =>
    (⟨some a, (a.lockPixelBuffer BitmapPixelBuffer.mkDefault).2,
      (a.lockPixelBuffer BitmapPixelBuffer.mkDefault).1⟩,
     [BitmapAccessorCall.lockPixelBuffer])

/-- The `BitmapLockScope` destructor:
`if(accessor && result == Steinberg::kResultOk) accessor->unlockPixelBuffer (&data)`.
Returns the trace of accessor calls made. -/
def bitmapLockScopeDtor (s : BitmapLockScope) : List BitmapAccessorCall :=
  match s.accessor with
  | none => []
  | some _ =>
    if s.result = kResultOk then [BitmapAccessorCall.unlockPixelBuffer] else []

/-- An accessor whose lock succeeds, writing a 2×2 RGBA buffer. -/
def okBitmapAccessor : IBitmapAccessor :=
  { lockPixelBuffer := fun _ =>
      (kResultOk, { width := 2, height := 2, format := kPixelFormatRGBA,
                    rowBytes := 8, scan0 := 4096 })
    unlockPixelBuffer := fun b => (kResultOk, b) }

/-! ## Catalog data model and builder (SoundVariationData,
SoundVariationFolderData, ISoundVariationList from ipslsoundvariation.h).
The source ships only the data structures and the pure-virtual
`ISoundVariationList` callback interface; the receiving builder is
host-implemented and absent from the repository, so its behaviour is
modelled from the specification where noted. -/

/-- `struct SoundVariationData`.  `title : String128` is carried as its
UTF-16 code units. -/
structure SoundVariationData where
  identifier : Int
  title : List Nat
  activationSequence : SoundActivationSequence
  color : Nat
  triggerPitch : Int
  scoreSymbols : ScoreSymbolList
  flags : Int

namespace SoundVariationData

/-- `kIsMomentary = 1 << 0`. -/
def kIsMomentary : Int := 2 ^ 0

/-- `kIsDefault = 1 << 1` — "No more than one variation should have this
flag." -/
def kIsDefault : Int := 2 ^ 1

/-- `SoundVariationData (VariationID id = -1)` default constructor. -/
def mkDefault : SoundVariationData :=
  { identifier := -1, title := [], activationSequence := .mkDefault,
    color := 0, triggerPitch := -1, scoreSymbols := .mkDefault, flags := 0 }

/-- Test of the `kIsDefault` bit in `flags`. -/
def hasDefaultFlag (d : SoundVariationData) : Bool :=
  decide (Int.land d.flags kIsDefault ≠ 0)

end SoundVariationData

/-- `struct SoundVariationFolderData`. -/
structure SoundVariationFolderData where
  title : List Nat
  color : Nat
  flags : Int

/-- `kAddTitleToVariations = 1 << 0`. -/
def SoundVariationFolderData.kAddTitleToVariations : Int := 2 ^ 0

/-- `struct SoundVariationPresetInfo`: preset display name and internal
path qualifier. -/
structure SoundVariationPresetInfo where
  name : List Nat
  path : List Nat

/-- One node of a catalog snapshot as driven through `ISoundVariationList`:
a variation, a folder opening, or a folder closing. -/
inductive CatalogNode where
  | variation (d : SoundVariationData)
  | folderBegin (f : SoundVariationFolderData)
  | folderEnd

/-- Whether a snapshot node is a variation carrying the `kIsDefault` flag. -/
def isDefaultVariation : CatalogNode → Bool
  | .variation d => d.hasDefaultFlag
  | .folderBegin _ => false
  | .folderEnd => false

/-- Number of default-flagged variations in a snapshot. -/
def defaultCount (s : List CatalogNode) : Nat :=
  (s.filter isDefaultVariation).length

/-- Modelled from the spec: the producer obligation attached to
`SoundVariationData::kIsDefault` ("No more than one variation should have
this flag") — no two distinct nodes of one snapshot are both
default-flagged variations.  The enforcing builder is host code absent from
the repository. -/
def AtMostOneDefault (s : List CatalogNode) : Prop :=
  s.Pairwise fun a b => ¬(isDefaultVariation a = true ∧ isDefaultVariation b = true)

instance (s : List CatalogNode) : Decidable (AtMostOneDefault s) := by
  unfold AtMostOneDefault
  infer_instance

/-- A concrete default-flagged variation (id 1). -/
def defaultFlaggedVariation : SoundVariationData :=
  { identifier := 1, title := [], activationSequence := .mkDefault,
    color := 0, triggerPitch := 36, scoreSymbols := .mkDefault,
    flags := SoundVariationData.kIsDefault }

/-- A concrete momentary (non-default) variation (id 2). -/
def momentaryVariation : SoundVariationData :=
  { identifier := 2, title := [], activationSequence := .mkDefault,
    color := 0, triggerPitch := -1, scoreSymbols := .mkDefault,
    flags := SoundVariationData.kIsMomentary }

/-- A concrete folder ("Leads"). -/
def leadsFolder : SoundVariationFolderData :=
  { title := [76, 101, 97, 100, 115], color := 0, flags := 0 }

/-- A concrete snapshot: a default-flagged variation followed by a folder
holding an ordinary variation. -/
def witnessSnapshot : List CatalogNode :=
  [CatalogNode.variation defaultFlaggedVariation,
   CatalogNode.folderBegin leadsFolder,
   CatalogNode.variation momentaryVariation,
   CatalogNode.folderEnd]

/-- The calls a producer can make on the `ISoundVariationList` builder
callback. -/
inductive CatalogBuilderCall where
  | addVariation (d : SoundVariationData)
  | beginFolder (f : SoundVariationFolderData)
  | endFolder
  | setPresetInfo (i : SoundVariationPresetInfo)

/-- Modelled from the spec: the state of the host-side catalog builder
driven through `ISoundVariationList` (absent from the repository): the nodes
received so far in call order, the declared preset info, the folder-nesting
depth, and a fail-fast contract-violation flag. -/
structure CatalogBuilderState where
  nodes : List CatalogNode
  presetInfo : Option SoundVariationPresetInfo
  depth : Int
  contractViolation : Bool

/-- The builder before any call: empty snapshot, depth 0. -/
def CatalogBuilderState.init : CatalogBuilderState :=
  { nodes := [], presetInfo := none, depth := 0, contractViolation := false }

/-- Modelled from the spec: one builder call.  `addVariation` appends a
variation node; `beginFolder` opens a folder (depth + 1); `endFolder` with an
open folder closes it (depth − 1), while an unmatched `endFolder` is a caller
contract violation that is rejected fail-fast without touching the nodes;
`setPresetInfo` records the preset info. -/
def builderStep (s : CatalogBuilderState) : CatalogBuilderCall →
    CatalogBuilderState
  | .addVariation d => { s with nodes := s.nodes ++ [CatalogNode.variation d] }
  | .beginFolder f =>
      { s with nodes := s.nodes ++ [CatalogNode.folderBegin f]
               depth := s.depth + 1 }
  | .endFolder =>
      if s.depth ≤ 0 then { s with contractViolation := true }
      else { s with nodes := s.nodes ++ [CatalogNode.folderEnd]
                    depth := s.depth - 1 }
  | .setPresetInfo i => { s with presetInfo := some i }

/-- Run a sequence of builder calls from the initial state. -/
def builderRun (calls : List CatalogBuilderCall) : CatalogBuilderState :=
  calls.foldl builderStep CatalogBuilderState.init

/-! ## Theorems -/

theorem toBytesLE_length (w v : Nat) : (toBytesLE w v).length = w := by
  induction w generalizing v with
  | zero => rfl
  | succ n ih => simp [toBytesLE, ih]

theorem fromBytesLE_toBytesLE (w v : Nat) :
    fromBytesLE (toBytesLE w v) = v % 256 ^ w := by
  induction w generalizing v with
  | zero => simp [toBytesLE, fromBytesLE, Nat.mod_one]
  | succ n ih =>
    simp only [toBytesLE, fromBytesLE, ih]
    rw [pow_succ, mul_comm (256 ^ n) 256, Nat.mod_mul]

theorem encInt32_length (v : Int) : (encInt32 v).length = 4 := by
  simp [encInt32, toBytesLE_length]

theorem decInt32_encInt32 (v : Int)
    (h1 : -2147483648 ≤ v) (h2 : v < 2147483648) :
    decInt32 (encInt32 v) = v := by
  have hmod : fromBytesLE (encInt32 v) = (v % 4294967296).toNat := by
    rw [encInt32, fromBytesLE_toBytesLE]
    have : (v % 4294967296).toNat < 4294967296 := by omega
    omega
  simp only [decInt32, hmod]
  omega

theorem encodeV3_length (e : Vst3SoundVariationEvent) :
    (encodeV3 e).length = 28 := by
  simp [encodeV3, encInt32_length, toBytesLE_length]

theorem encodeV2_length (e : Vst2SoundVariationEvent) :
    (encodeV2 e).length = 24 := by
  simp [encodeV2, encInt32_length]

theorem encodeV3_slices (e : Vst3SoundVariationEvent) :
    (encodeV3 e).take 4 = encInt32 e.busIndex ∧
    ((encodeV3 e).drop 4).take 4 = encInt32 e.sampleOffset ∧
    ((encodeV3 e).drop 8).take 8 = toBytesLE 8 e.ppqPosition ∧
    ((encodeV3 e).drop 16).take 2 = toBytesLE 2 e.flags ∧
    ((encodeV3 e).drop 18).take 2 = toBytesLE 2 e.type ∧
    ((encodeV3 e).drop 20).take 4 = encInt32 e.channel ∧
    ((encodeV3 e).drop 24).take 4 = encInt32 e.variationId := by
  have l4 : ∀ v : Int, (encInt32 v).length = 4 := encInt32_length
  have d4 : (encodeV3 e).drop 4 =
      encInt32 e.sampleOffset ++ (toBytesLE 8 e.ppqPosition ++
      (toBytesLE 2 e.flags ++ (toBytesLE 2 e.type ++
      (encInt32 e.channel ++ encInt32 e.variationId)))) := by
    rw [encodeV3, List.append_assoc, List.append_assoc, List.append_assoc,
      List.append_assoc, List.append_assoc]
    exact List.drop_left' (l4 _)
  have d8 : (encodeV3 e).drop 8 =
      toBytesLE 8 e.ppqPosition ++ (toBytesLE 2 e.flags ++
      (toBytesLE 2 e.type ++ (encInt32 e.channel ++ encInt32 e.variationId))) := by
    have : (encodeV3 e).drop 8 = ((encodeV3 e).drop 4).drop 4 := by
      rw [List.drop_drop]
    rw [this, d4]
    exact List.drop_left' (l4 _)
  have d16 : (encodeV3 e).drop 16 =
      toBytesLE 2 e.flags ++ (toBytesLE 2 e.type ++
      (encInt32 e.channel ++ encInt32 e.variationId)) := by
    have : (encodeV3 e).drop 16 = ((encodeV3 e).drop 8).drop 8 := by
      rw [List.drop_drop]
    rw [this, d8]
    exact List.drop_left' (toBytesLE_length 8 _)
  have d18 : (encodeV3 e).drop 18 =
      toBytesLE 2 e.type ++ (encInt32 e.channel ++ encInt32 e.variationId) := by
    have : (encodeV3 e).drop 18 = ((encodeV3 e).drop 16).drop 2 := by
      rw [List.drop_drop]
    rw [this, d16]
    exact List.drop_left' (toBytesLE_length 2 _)
  have d20 : (encodeV3 e).drop 20 =
      encInt32 e.channel ++ encInt32 e.variationId := by
    have : (encodeV3 e).drop 20 = ((encodeV3 e).drop 18).drop 2 := by
      rw [List.drop_drop]
    rw [this, d18]
    exact List.drop_left' (toBytesLE_length 2 _)
  have d24 : (encodeV3 e).drop 24 = encInt32 e.variationId := by
    have : (encodeV3 e).drop 24 = ((encodeV3 e).drop 20).drop 4 := by
      rw [List.drop_drop]
    rw [this, d20]
    exact List.drop_left' (l4 _)
  refine ⟨?_, ?_, ?_, ?_, ?_, ?_, ?_⟩
  · rw [encodeV3, List.append_assoc, List.append_assoc, List.append_assoc,
      List.append_assoc, List.append_assoc]
    exact List.take_left' (l4 _)
  · rw [d4]; exact List.take_left' (l4 _)
  · rw [d8]; exact List.take_left' (toBytesLE_length 8 _)
  · rw [d16]; exact List.take_left' (toBytesLE_length 2 _)
  · rw [d18]; exact List.take_left' (toBytesLE_length 2 _)
  · rw [d20]; exact List.take_left' (l4 _)
  · rw [d24]; exact (List.take_of_length_le (by rw [l4])).trans rfl

theorem encodeV2_slices (e : Vst2SoundVariationEvent) :
    (encodeV2 e).take 4 = encInt32 e.type ∧
    ((encodeV2 e).drop 4).take 4 = encInt32 e.byteSize ∧
    ((encodeV2 e).drop 8).take 4 = encInt32 e.deltaFrames ∧
    ((encodeV2 e).drop 12).take 4 = encInt32 e.flags ∧
    ((encodeV2 e).drop 16).take 4 = encInt32 e.channel ∧
    ((encodeV2 e).drop 20).take 4 = encInt32 e.variationId := by
  have l4 : ∀ v : Int, (encInt32 v).length = 4 := encInt32_length
  have d4 : (encodeV2 e).drop 4 =
      encInt32 e.byteSize ++ (encInt32 e.deltaFrames ++
      (encInt32 e.flags ++ (encInt32 e.channel ++ encInt32 e.variationId))) := by
    rw [encodeV2, List.append_assoc, List.append_assoc, List.append_assoc,
      List.append_assoc]
    exact List.drop_left' (l4 _)
  have d8 : (encodeV2 e).drop 8 =
      encInt32 e.deltaFrames ++
      (encInt32 e.flags ++ (encInt32 e.channel ++ encInt32 e.variationId)) := by
    have : (encodeV2 e).drop 8 = ((encodeV2 e).drop 4).drop 4 := by
      rw [List.drop_drop]
    rw [this, d4]; exact List.drop_left' (l4 _)
  have d12 : (encodeV2 e).drop 12 =
      encInt32 e.flags ++ (encInt32 e.channel ++ encInt32 e.variationId) := by
    have : (encodeV2 e).drop 12 = ((encodeV2 e).drop 8).drop 4 := by
      rw [List.drop_drop]
    rw [this, d8]; exact List.drop_left' (l4 _)
  have d16 : (encodeV2 e).drop 16 =
      encInt32 e.channel ++ encInt32 e.variationId := by
    have : (encodeV2 e).drop 16 = ((encodeV2 e).drop 12).drop 4 := by
      rw [List.drop_drop]
    rw [this, d12]; exact List.drop_left' (l4 _)
  have d20 : (encodeV2 e).drop 20 = encInt32 e.variationId := by
    have : (encodeV2 e).drop 20 = ((encodeV2 e).drop 16).drop 4 := by
      rw [List.drop_drop]
    rw [this, d16]; exact List.drop_left' (l4 _)
  refine ⟨?_, ?_, ?_, ?_, ?_, ?_⟩
  · rw [encodeV2, List.append_assoc, List.append_assoc, List.append_assoc,
      List.append_assoc]
    exact List.take_left' (l4 _)
  · rw [d4]; exact List.take_left' (l4 _)
  · rw [d8]; exact List.take_left' (l4 _)
  · rw [d12]; exact List.take_left' (l4 _)
  · rw [d16]; exact List.take_left' (l4 _)
  · rw [d20]; exact List.take_of_length_le (by rw [l4])

theorem fromBytesLE_toBytesLE_of_lt {w v : Nat} (h : v < 256 ^ w) :
    fromBytesLE (toBytesLE w v) = v := by
  rw [fromBytesLE_toBytesLE, Nat.mod_eq_of_lt h]

theorem decodeV3_encodeV3 (e : Vst3SoundVariationEvent) (h : LegalV3 e) :
    decodeV3 (encodeV3 e) = some e := by
  obtain ⟨b, s, p, f, t, c, v⟩ := e
  obtain ⟨hb1, hb2, hs1, hs2, hp, hf, ht, hc1, hc2, hv1, hv2⟩ := h
  obtain ⟨s0, s4, s8, s16, s18, s20, s24⟩ := encodeV3_slices ⟨b, s, p, f, t, c, v⟩
  simp only at hb1 hb2 hs1 hs2 hp hf ht hc1 hc2 hv1 hv2 s0 s4 s8 s16 s18 s20 s24
  have htyv : fromBytesLE (((encodeV3 ⟨b, s, p, f, t, c, v⟩).drop 18).take 2) = t := by
    rw [s18]
    refine fromBytesLE_toBytesLE_of_lt ?_
    rcases ht with ht | ht
    · rw [ht]; decide
    · rw [ht]; decide
  rw [decodeV3, if_pos (encodeV3_length _)]
  simp only [htyv]
  rw [if_pos ht]
  rw [s0, s4, s8, s16, s20, s24]
  rw [decInt32_encInt32 b hb1 hb2, decInt32_encInt32 s hs1 hs2,
    decInt32_encInt32 c hc1 hc2, decInt32_encInt32 v hv1 hv2,
    fromBytesLE_toBytesLE_of_lt (show p < 256 ^ 8 by exact_mod_cast hp),
    fromBytesLE_toBytesLE_of_lt (show f < 256 ^ 2 by exact_mod_cast hf)]

theorem decodeV2_encodeV2 (e : Vst2SoundVariationEvent) (h : LegalV2 e) :
    decodeV2 (encodeV2 e) = some e := by
  obtain ⟨t, bz, d, f, c, v⟩ := e
  obtain ⟨ht, hbs, hd1, hd2, hf1, hf2, hc1, hc2, hv1, hv2⟩ := h
  obtain ⟨s0, s4, s8, s12, s16, s20⟩ := encodeV2_slices ⟨t, bz, d, f, c, v⟩
  simp only at ht hbs hd1 hd2 hf1 hf2 hc1 hc2 hv1 hv2 s0 s4 s8 s12 s16 s20
  subst hbs
  have htyv : decInt32 ((encodeV2 ⟨t, Vst2SoundVariationEvent.kExpectedByteSize,
      d, f, c, v⟩).take 4) = t := by
    rw [s0]
    refine decInt32_encInt32 t ?_ ?_
    · rcases ht with ht | ht
      · rw [ht]; decide
      · rw [ht]; decide
    · rcases ht with ht | ht
      · rw [ht]; decide
      · rw [ht]; decide
  have hszv : decInt32 (((encodeV2 ⟨t, Vst2SoundVariationEvent.kExpectedByteSize,
      d, f, c, v⟩).drop 4).take 4) = Vst2SoundVariationEvent.kExpectedByteSize := by
    rw [s4]
    exact decInt32_encInt32 _ (by decide) (by decide)
  have hlen : 8 ≤ (encodeV2 ⟨t, Vst2SoundVariationEvent.kExpectedByteSize,
      d, f, c, v⟩).length := by rw [encodeV2_length]; omega
  rw [decodeV2, if_pos hlen]
  simp only [htyv, hszv]
  rw [if_pos ht]
  set enc := encodeV2 (⟨t, Vst2SoundVariationEvent.kExpectedByteSize, d, f, c, v⟩ :
    Vst2SoundVariationEvent) with henc
  have hszn : (Vst2SoundVariationEvent.kExpectedByteSize).toNat = 16 := by decide
  have hpay : (enc.drop 8).take (Vst2SoundVariationEvent.kExpectedByteSize).toNat =
      enc.drop 8 := by
    refine List.take_of_length_le ?_
    rw [List.length_drop, henc, encodeV2_length, hszn]
  have hpaylen : 16 ≤ ((enc.drop 8).take
      (Vst2SoundVariationEvent.kExpectedByteSize).toNat).length := by
    rw [hpay, List.length_drop, henc, encodeV2_length]
  rw [if_pos hpaylen, hpay]
  have h12 : (enc.drop 8).drop 4 = enc.drop 12 := by rw [List.drop_drop]
  have h16 : (enc.drop 8).drop 8 = enc.drop 16 := by rw [List.drop_drop]
  have h20 : (enc.drop 8).drop 12 = enc.drop 20 := by rw [List.drop_drop]
  rw [h12, h16, h20, s8, s12, s16, s20]
  rw [decInt32_encInt32 d hd1 hd2, decInt32_encInt32 f hf1 hf2,
    decInt32_encInt32 c hc1 hc2, decInt32_encInt32 v hv1 hv2]

/-- C2: the two wire event records have exactly the specified field order,
widths and tag values.  `Vst3SoundVariationEvent` serializes to 28 bytes with
busIndex:int32 at offset 0, sampleOffset:int32 at 4, ppqPosition:float64 at 8,
flags:uint16 at 16, type:uint16 at 18, channel:int32 at 20, variationId:int32
at 24, and its tags are 'VE' (activate) and 'VT' (terminate);
`Vst2SoundVariationEvent` serializes to 24 bytes of six int32 fields in order
type, byteSize, deltaFrames, flags, channel, variationId, with tags 'PSVE'
(activate) and 'PSVT' (terminate). -/
theorem wire_event_field_layout (e3 : Vst3SoundVariationEvent)
    (e2 : Vst2SoundVariationEvent) (h3 : LegalV3 e3) (h2 : LegalV2 e2) :
    Vst3SoundVariationEvent.kTypeId = 0x5645 ∧
    Vst3SoundVariationEvent.kTerminateTypeId = 0x5654 ∧
    Vst2SoundVariationEvent.kTypeId = 0x50535645 ∧
    Vst2SoundVariationEvent.kTerminateTypeId = 0x50535654 ∧
    (encodeV3 e3).length = 28 ∧
    decInt32 ((encodeV3 e3).take 4) = e3.busIndex ∧
    decInt32 (((encodeV3 e3).drop 4).take 4) = e3.sampleOffset ∧
    fromBytesLE (((encodeV3 e3).drop 8).take 8) = e3.ppqPosition ∧
    fromBytesLE (((encodeV3 e3).drop 16).take 2) = e3.flags ∧
    fromBytesLE (((encodeV3 e3).drop 18).take 2) = e3.type ∧
    decInt32 (((encodeV3 e3).drop 20).take 4) = e3.channel ∧
    decInt32 (((encodeV3 e3).drop 24).take 4) = e3.variationId ∧
    (encodeV2 e2).length = 24 ∧
    decInt32 ((encodeV2 e2).take 4) = e2.type ∧
    decInt32 (((encodeV2 e2).drop 4).take 4) = e2.byteSize ∧
    decInt32 (((encodeV2 e2).drop 8).take 4) = e2.deltaFrames ∧
    decInt32 (((encodeV2 e2).drop 12).take 4) = e2.flags ∧
    decInt32 (((encodeV2 e2).drop 16).take 4) = e2.channel ∧
    decInt32 (((encodeV2 e2).drop 20).take 4) = e2.variationId := by
  obtain ⟨hb1, hb2, hs1, hs2, hp, hf, ht, hc1, hc2, hv1, hv2⟩ := h3
  obtain ⟨gt, gbs, gd1, gd2, gf1, gf2, gc1, gc2, gv1, gv2⟩ := h2
  obtain ⟨s0, s4, s8, s16, s18, s20, s24⟩ := encodeV3_slices e3
  obtain ⟨u0, u4, u8, u12, u16, u20⟩ := encodeV2_slices e2
  have ht16 : e3.type < 65536 := by
    rcases ht with ht | ht <;> rw [ht] <;> decide
  have gtr : -2147483648 ≤ e2.type ∧ e2.type < 2147483648 := by
    rcases gt with gt | gt <;> rw [gt] <;> exact ⟨by decide, by decide⟩
  refine ⟨by decide, by decide, by decide, by decide, encodeV3_length e3,
    ?_, ?_, ?_, ?_, ?_, ?_, ?_, encodeV2_length e2, ?_, ?_, ?_, ?_, ?_, ?_⟩
  · rw [s0]; exact decInt32_encInt32 _ hb1 hb2
  · rw [s4]; exact decInt32_encInt32 _ hs1 hs2
  · rw [s8]; exact fromBytesLE_toBytesLE_of_lt (by exact_mod_cast hp)
  · rw [s16]; exact fromBytesLE_toBytesLE_of_lt (by exact_mod_cast hf)
  · rw [s18]; exact fromBytesLE_toBytesLE_of_lt (by exact_mod_cast ht16)
  · rw [s20]; exact decInt32_encInt32 _ hc1 hc2
  · rw [s24]; exact decInt32_encInt32 _ hv1 hv2
  · rw [u0]; exact decInt32_encInt32 _ gtr.1 gtr.2
  · rw [u4]; exact decInt32_encInt32 _ (by rw [gbs]; decide) (by rw [gbs]; decide)
  · rw [u8]; exact decInt32_encInt32 _ gd1 gd2
  · rw [u12]; exact decInt32_encInt32 _ gf1 gf2
  · rw [u16]; exact decInt32_encInt32 _ gc1 gc2
  · rw [u20]; exact decInt32_encInt32 _ gv1 gv2

/-- Witness for `wire_event_field_layout` at concrete boundary-valued events. -/
theorem wire_event_field_layout_witness :
    LegalV3 witnessEventV3 ∧ LegalV2 witnessEventV2 ∧
    (encodeV3 witnessEventV3).length = 28 ∧
    decInt32 (((encodeV3 witnessEventV3).drop 24).take 4) =
      witnessEventV3.variationId :=
  ⟨by decide, by decide,
   (wire_event_field_layout witnessEventV3 witnessEventV2
      (by decide) (by decide)).2.2.2.2.1,
   (wire_event_field_layout witnessEventV3 witnessEventV2
      (by decide) (by decide)).2.2.2.2.2.2.2.2.2.2.2.1⟩

/-- C3: for both wire formats, encoding a legal event, decoding the bytes and
encoding again yields byte-identical output to the first encoding (the decoder
recovers the event exactly). -/
theorem wire_event_roundtrip (e3 : Vst3SoundVariationEvent)
    (e2 : Vst2SoundVariationEvent) (h3 : LegalV3 e3) (h2 : LegalV2 e2) :
    (decodeV3 (encodeV3 e3)).map encodeV3 = some (encodeV3 e3) ∧
    (decodeV2 (encodeV2 e2)).map encodeV2 = some (encodeV2 e2) := by
  rw [decodeV3_encodeV3 e3 h3, decodeV2_encodeV2 e2 h2]
  exact ⟨rfl, rfl⟩

/-- Witness for `wire_event_roundtrip`: the V3 event carries
variationId = INT32_MIN and channel = −1, the V2 event carries
variationId = INT32_MAX and channel = 15. -/
theorem wire_event_roundtrip_witness :
    LegalV3 witnessEventV3 ∧ LegalV2 witnessEventV2 ∧
    witnessEventV3.variationId = -2147483648 ∧ witnessEventV3.channel = -1 ∧
    witnessEventV2.variationId = 2147483647 ∧ witnessEventV2.channel = 15 ∧
    (decodeV3 (encodeV3 witnessEventV3)).map encodeV3 =
      some (encodeV3 witnessEventV3) ∧
    (decodeV2 (encodeV2 witnessEventV2)).map encodeV2 =
      some (encodeV2 witnessEventV2) :=
  ⟨by decide, by decide, rfl, rfl, rfl, rfl,
   wire_event_roundtrip witnessEventV3 witnessEventV2 (by decide) (by decide)⟩

/-- C1: on a sequence already holding 8 items every add operation is a no-op
(count stays 8 and every stored item is unchanged, the whole value is
unchanged); likewise `addSymbol` on a symbol list already holding 4 symbols. -/
theorem capacity_overflow_noop (s : SoundActivationSequence)
    (l : ScoreSymbolList) (item : SoundActivationSequenceItem)
    (note : SoundActivationSequenceItem.Note) (noteType : Int)
    (controller : SoundActivationSequenceItem.Controller)
    (value : Int) (symbol : Nat)
    (hs : s.count = 8) (hl : l.count = 4) :
    s.addItem item = s ∧ s.addNote note noteType = s ∧
    s.addController controller = s ∧ s.addProgramChange value = s ∧
    (s.addItem item).count = 8 ∧
    (∀ j : Int, (s.addItem item).items j = s.items j) ∧
    l.addSymbol symbol = l ∧ (l.addSymbol symbol).count = 4 ∧
    (∀ j : Int, (l.addSymbol symbol).symbols j = l.symbols j) := by
  have hns : ¬ s.count < SoundActivationSequence.kMaxItems := by
    rw [hs, SoundActivationSequence.kMaxItems]; omega
  have hnl : ¬ l.count < ScoreSymbolList.kMaxItems := by
    rw [hl, ScoreSymbolList.kMaxItems]; omega
  have e1 : s.addItem item = s := by rw [SoundActivationSequence.addItem, if_neg hns]
  have e5 : l.addSymbol symbol = l := by rw [ScoreSymbolList.addSymbol, if_neg hnl]
  refine ⟨e1, ?_, ?_, ?_, by rw [e1, hs], fun j => by rw [e1], e5,
    by rw [e5, hl], fun j => by rw [e5]⟩
  · rw [SoundActivationSequence.addNote, if_neg hns]
  · rw [SoundActivationSequence.addController, if_neg hns]
  · rw [SoundActivationSequence.addProgramChange, if_neg hns]

/-- Witness for `capacity_overflow_noop`: a ninth insertion into a full
sequence and a fifth insertion into a full symbol list are no-ops. -/
theorem capacity_overflow_noop_witness :
    fullSequence.count = 8 ∧ fullSymbolList.count = 4 ∧
    fullSequence.addItem SoundActivationSequenceItem.mkDefault = fullSequence ∧
    fullSymbolList.addSymbol (charTag4 'p' 'i' 'z' 'z') = fullSymbolList :=
  ⟨rfl, rfl,
   (capacity_overflow_noop fullSequence fullSymbolList
     SoundActivationSequenceItem.mkDefault
     SoundActivationSequenceItem.Note.mkDefault 0 ⟨1, 2⟩ 0
     (charTag4 'p' 'i' 'z' 'z') rfl rfl).1,
   (capacity_overflow_noop fullSequence fullSymbolList
     SoundActivationSequenceItem.mkDefault
     SoundActivationSequenceItem.Note.mkDefault 0 ⟨1, 2⟩ 0
     (charTag4 'p' 'i' 'z' 'z') rfl rfl).2.2.2.2.2.2.1⟩

/-- C9: the default constructors establish `0 ≤ count ≤ kMaxItems` (with
count = 0), every operation preserves it, and each successful add (one that
finds `count < kMaxItems`) increases `count` by exactly 1 and writes only the
slot at the old `count`. -/
theorem count_invariant_preserved (s : SoundActivationSequence)
    (l : ScoreSymbolList) (item : SoundActivationSequenceItem)
    (note : SoundActivationSequenceItem.Note) (noteType : Int)
    (controller : SoundActivationSequenceItem.Controller)
    (value : Int) (symbol : Nat)
    (hs : s.CountInv) (hl : l.CountInv) :
    SoundActivationSequence.mkDefault.CountInv ∧
    SoundActivationSequence.mkDefault.count = 0 ∧
    ScoreSymbolList.mkDefault.CountInv ∧
    ScoreSymbolList.mkDefault.count = 0 ∧
    s.clear.CountInv ∧ (s.addItem item).CountInv ∧
    (s.addNote note noteType).CountInv ∧
    (s.addController controller).CountInv ∧
    (s.addProgramChange value).CountInv ∧
    l.clear.CountInv ∧ (l.addSymbol symbol).CountInv ∧
    (s.count < SoundActivationSequence.kMaxItems →
      (s.addItem item).count = s.count + 1 ∧
      (s.addItem item).items s.count = item ∧
      (∀ j : Int, j ≠ s.count → (s.addItem item).items j = s.items j) ∧
      (s.addNote note noteType).count = s.count + 1 ∧
      (∀ j : Int, j ≠ s.count → (s.addNote note noteType).items j = s.items j) ∧
      (s.addController controller).count = s.count + 1 ∧
      (∀ j : Int, j ≠ s.count →
        (s.addController controller).items j = s.items j) ∧
      (s.addProgramChange value).count = s.count + 1 ∧
      (∀ j : Int, j ≠ s.count →
        (s.addProgramChange value).items j = s.items j)) ∧
    (l.count < ScoreSymbolList.kMaxItems →
      (l.addSymbol symbol).count = l.count + 1 ∧
      (l.addSymbol symbol).symbols l.count = symbol ∧
      (∀ j : Int, j ≠ l.count → (l.addSymbol symbol).symbols j = l.symbols j)) := by
  obtain ⟨hs0, hs8⟩ := hs
  obtain ⟨hl0, hl4⟩ := hl
  rw [SoundActivationSequence.kMaxItems] at hs8
  rw [ScoreSymbolList.kMaxItems] at hl4
  refine ⟨⟨by decide, by decide⟩, rfl, ⟨by decide, by decide⟩, rfl,
    ⟨by simp [SoundActivationSequence.clear], by
      simp [SoundActivationSequence.clear, SoundActivationSequence.kMaxItems]⟩,
    ?_, ?_, ?_, ?_,
    ⟨by simp [ScoreSymbolList.clear], by
      simp [ScoreSymbolList.clear, ScoreSymbolList.kMaxItems]⟩,
    ?_, ?_, ?_⟩
  · unfold SoundActivationSequence.addItem SoundActivationSequence.CountInv
    rw [SoundActivationSequence.kMaxItems]
    split <;> refine ⟨?_, ?_⟩ <;> (try dsimp only) <;> omega
  · unfold SoundActivationSequence.addNote SoundActivationSequence.CountInv
    rw [SoundActivationSequence.kMaxItems]
    split <;> refine ⟨?_, ?_⟩ <;> (try dsimp only) <;> omega
  · unfold SoundActivationSequence.addController SoundActivationSequence.CountInv
    rw [SoundActivationSequence.kMaxItems]
    split <;> refine ⟨?_, ?_⟩ <;> (try dsimp only) <;> omega
  · unfold SoundActivationSequence.addProgramChange SoundActivationSequence.CountInv
    rw [SoundActivationSequence.kMaxItems]
    split <;> refine ⟨?_, ?_⟩ <;> (try dsimp only) <;> omega
  · unfold ScoreSymbolList.addSymbol ScoreSymbolList.CountInv
    rw [ScoreSymbolList.kMaxItems]
    split <;> refine ⟨?_, ?_⟩ <;> (try dsimp only) <;> omega
  · intro hlt
    have hi : s.addItem item =
        { count := s.count + 1
          items := fun j => if j = s.count then item else s.items j } := by
      rw [SoundActivationSequence.addItem, if_pos hlt]
    have hn : s.addNote note noteType =
        { count := s.count + 1
          items := fun j => if j = s.count then
              { type := noteType, payload := .note note } else s.items j } := by
      rw [SoundActivationSequence.addNote, if_pos hlt]
    have hc : s.addController controller =
        { count := s.count + 1
          items := fun j => if j = s.count then
              { type := SoundActivationSequenceItem.kControlEvent
                payload := .controller controller } else s.items j } := by
      rw [SoundActivationSequence.addController, if_pos hlt]
    have hp : s.addProgramChange value =
        { count := s.count + 1
          items := fun j => if j = s.count then
              { type := SoundActivationSequenceItem.kProgramChange
                payload := .programChange { value := value } }
            else s.items j } := by
      rw [SoundActivationSequence.addProgramChange, if_pos hlt]
    refine ⟨by rw [hi], by rw [hi]; simp, fun j hj => by rw [hi]; simp [hj],
      by rw [hn], fun j hj => by rw [hn]; simp [hj],
      by rw [hc], fun j hj => by rw [hc]; simp [hj],
      by rw [hp], fun j hj => by rw [hp]; simp [hj]⟩
  · intro hlt
    have ha : l.addSymbol symbol =
        { count := l.count + 1
          symbols := fun j => if j = l.count then symbol else l.symbols j } := by
      rw [ScoreSymbolList.addSymbol, if_pos hlt]
    exact ⟨by rw [ha], by rw [ha]; simp, fun j hj => by rw [ha]; simp [hj]⟩

/-- Witness for `count_invariant_preserved`: concrete one-step additions on
the default-constructed values. -/
theorem count_invariant_preserved_witness :
    SoundActivationSequence.mkDefault.CountInv ∧
    ScoreSymbolList.mkDefault.CountInv ∧
    (SoundActivationSequence.mkDefault.addItem
      SoundActivationSequenceItem.mkDefault).count = 1 ∧
    (ScoreSymbolList.mkDefault.addSymbol (charTag4 'a' 'r' 'c' 'o')).count = 1 :=
  ⟨⟨by decide, by decide⟩, ⟨by decide, by decide⟩,
   by
    have := (count_invariant_preserved SoundActivationSequence.mkDefault
      ScoreSymbolList.mkDefault SoundActivationSequenceItem.mkDefault
      SoundActivationSequenceItem.Note.mkDefault 0 ⟨1, 2⟩ 0
      (charTag4 'a' 'r' 'c' 'o') ⟨by decide, by decide⟩
      ⟨by decide, by decide⟩).2.2.2.2.2.2.2.2.2.2.2.1 (by decide)
    rw [this.1]; rfl,
   by
    have := (count_invariant_preserved SoundActivationSequence.mkDefault
      ScoreSymbolList.mkDefault SoundActivationSequenceItem.mkDefault
      SoundActivationSequenceItem.Note.mkDefault 0 ⟨1, 2⟩ 0
      (charTag4 'a' 'r' 'c' 'o') ⟨by decide, by decide⟩
      ⟨by decide, by decide⟩).2.2.2.2.2.2.2.2.2.2.2.2 (by decide)
    rw [this.1]; rfl⟩

/-- C4 counterexample: the claim fails on the code.  The three capability
queries of `ISoundVariationController` return `TBool`, and no assignment of
TBool return values can keep the three required answers NotImplemented /
False / True apart: there is no injection of `CapabilityTriState` into
`TBool`. -/
theorem capability_queries_not_tristate :
    ¬ ∃ f : CapabilityTriState → TBool, Function.Injective f := by
  rintro ⟨f, hf⟩
  have hc := Fintype.card_le_of_injective f hf
  have h3 : Fintype.card CapabilityTriState = 3 := rfl
  have h2 : Fintype.card TBool = 2 := rfl
  omega

/-- C4 amended: each of the three capability queries returns a two-state
`TBool`, so a caller can tell an affirmative from a negative answer but
cannot tell NotImplemented apart from False through them; only the
`tresult`-returning `disableKeySwitches` method can report the three
outcomes distinctly (`kNotImplemented`, `kResultFalse`, `kResultTrue`). -/
theorem capability_queries_two_state :
    (∃ f : Bool → TBool, Function.Injective f) ∧
    (∀ f : CapabilityTriState → TBool, ¬ Function.Injective f) ∧
    (∃ g : CapabilityTriState → Int, Function.Injective g ∧
      g .notImplemented = kNotImplemented ∧
      g .rejectedAnswer = kResultFalse ∧
      g .affirmedAnswer = kResultTrue) := by
  refine ⟨⟨id, fun a b h => h⟩, ?_, ?_⟩
  · intro f hf
    have hc := Fintype.card_le_of_injective f hf
    have h3 : Fintype.card CapabilityTriState = 3 := rfl
    have h2 : Fintype.card TBool = 2 := rfl
    omega
  · refine ⟨fun t => match t with
      | .notImplemented => kNotImplemented
      | .rejectedAnswer => kResultFalse
      | .affirmedAnswer => kResultTrue, ?_, rfl, rfl, rfl⟩
    intro a b h
    cases a <;> cases b <;> first
      | rfl
      | (exfalso; revert h;
         simp [kNotImplemented, kResultFalse, kResultTrue])

/-- C5: a sound-variation change notification carries exactly the change
category (the payload type is in bijection with a single int32, the
bijection reading off `changeMessage`); an instrument change notification
carries exactly the category plus the (busIndex, channel) scope; and when the
scope is omitted the C++ defaults deliver (−1, −1), meaning all units.  No
other payload exists in either notification. -/
theorem change_notification_payload :
    (∃ eq : SoundVariationChangeNotification ≃ Int,
      ∀ n, eq n = n.changeMessage) ∧
    (∃ eq : InstrumentChangeNotification ≃ Int × Int × Int,
      ∀ n, eq n = (n.changeMessage, n.busIndex, n.channel)) ∧
    (∀ msg, (mkInstrumentChangeNotification msg).changeMessage = msg ∧
      (mkInstrumentChangeNotification msg).busIndex = -1 ∧
      (mkInstrumentChangeNotification msg).channel = -1) := by
  refine ⟨⟨⟨fun n => n.changeMessage, fun i => ⟨i⟩, fun n => rfl, fun i => rfl⟩,
      fun n => rfl⟩,
    ⟨⟨fun n => (n.changeMessage, n.busIndex, n.channel),
      fun p => ⟨p.1, p.2.1, p.2.2⟩, fun n => rfl, fun p => rfl⟩, fun n => rfl⟩,
    fun msg => ⟨rfl, rfl, rfl⟩⟩

/-- C10: the destructor calls `unlockPixelBuffer` exactly when the accessor
was non-null and the constructor's `lockPixelBuffer` call returned
`kResultOk` (and it never makes any other call); with a null accessor the
constructor attempts no lock and stores `kResultFalse`. -/
theorem bitmap_lock_scope_balanced (acc : Option IBitmapAccessor) :
    (bitmapLockScopeDtor (bitmapLockScopeCtor acc).1 =
        [BitmapAccessorCall.unlockPixelBuffer] ↔
      acc.isSome = true ∧ (bitmapLockScopeCtor acc).1.result = kResultOk) ∧
    (bitmapLockScopeDtor (bitmapLockScopeCtor acc).1 = [] ∨
      bitmapLockScopeDtor (bitmapLockScopeCtor acc).1 =
        [BitmapAccessorCall.unlockPixelBuffer]) ∧
    (bitmapLockScopeCtor none).2 = [] ∧
    (bitmapLockScopeCtor none).1.result = kResultFalse ∧
    (∀ a, acc = some a →
      (bitmapLockScopeCtor acc).2 = [BitmapAccessorCall.lockPixelBuffer] ∧
      (bitmapLockScopeCtor acc).1.result =
        (a.lockPixelBuffer BitmapPixelBuffer.mkDefault).1) := by
  refine ⟨?_, ?_, rfl, rfl, ?_⟩
  · cases acc with
    | none => simp [bitmapLockScopeCtor, bitmapLockScopeDtor]
    | some a =>
      simp only [bitmapLockScopeCtor, bitmapLockScopeDtor, Option.isSome_some,
        true_and]
      split
      · simp [*]
      · rename_i hne
        simp [hne]
  · cases acc with
    | none => left; rfl
    | some a =>
      simp only [bitmapLockScopeCtor, bitmapLockScopeDtor]
      split
      · right; rfl
      · left; rfl
  · intro a ha
    subst ha
    exact ⟨rfl, rfl⟩

/-- Witness for `bitmap_lock_scope_balanced` at a concrete accessor whose
lock succeeds: the destructor emits exactly the unlock call, and on a null
accessor the constructor emits nothing and stores `kResultFalse`. -/
theorem bitmap_lock_scope_balanced_witness :
    (some okBitmapAccessor = some okBitmapAccessor) ∧
    ((bitmapLockScopeCtor (some okBitmapAccessor)).2 =
      [BitmapAccessorCall.lockPixelBuffer] ∧
     (bitmapLockScopeCtor (some okBitmapAccessor)).1.result =
      (okBitmapAccessor.lockPixelBuffer BitmapPixelBuffer.mkDefault).1) ∧
    (bitmapLockScopeCtor none).2 = [] ∧
    (bitmapLockScopeCtor none).1.result = kResultFalse :=
  ⟨rfl,
   (bitmap_lock_scope_balanced (some okBitmapAccessor)).2.2.2.2
     okBitmapAccessor rfl,
   (bitmap_lock_scope_balanced (some okBitmapAccessor)).2.2.1,
   (bitmap_lock_scope_balanced (some okBitmapAccessor)).2.2.2.1⟩

theorem decodeV2_take_declared (bs : List Nat) :
    decodeV2 bs = decodeV2 (bs.take (8 + declaredV2 bs)) := by
  by_cases hlen : 8 ≤ bs.length
  · have hlen' : 8 ≤ (bs.take (8 + declaredV2 bs)).length := by
      rw [List.length_take]; omega
    have h1 : (bs.take (8 + declaredV2 bs)).take 4 = bs.take 4 := by
      rw [List.take_take, Nat.min_eq_left (by omega)]
    have h2' : ((bs.take (8 + declaredV2 bs)).drop 4).take 4 =
        (bs.drop 4).take 4 := by
      rw [List.drop_take, List.take_take, Nat.min_eq_left (by omega)]
    have h3 : (bs.take (8 + declaredV2 bs)).drop 8 =
        (bs.drop 8).take (declaredV2 bs) := by
      rw [List.drop_take]
      congr 1
      omega
    rw [decodeV2, decodeV2, if_pos hlen, if_pos hlen']
    simp only [h1, h2', h3]
    simp only [declaredV2, List.take_take, Nat.min_self]
  · have hlen' : ¬ 8 ≤ (bs.take (8 + declaredV2 bs)).length := by
      rw [List.length_take]; omega
    rw [decodeV2, decodeV2, if_neg hlen, if_neg hlen']

/-- C6: for every legal encoded `Vst2SoundVariationEvent` the `byteSize`
field holds the statically expected encoded payload size — 16 bytes, the
total 24-byte record minus the two header int32s — and the decoder's result
depends only on the 8-byte header plus the `byteSize` bytes declared in it:
it never reads beyond the declared byteSize. -/
theorem v2_bytesize_contract (e : Vst2SoundVariationEvent) (bs : List Nat)
    (h : LegalV2 e) :
    e.byteSize = 16 ∧
    ((encodeV2 e).length : Int) = 8 + e.byteSize ∧
    declaredV2 (encodeV2 e) = e.byteSize.toNat ∧
    decodeV2 bs = decodeV2 (bs.take (8 + declaredV2 bs)) := by
  have hbs : e.byteSize = 16 := by
    rw [h.2.1, Vst2SoundVariationEvent.kExpectedByteSize]
    decide
  refine ⟨hbs, ?_, ?_, decodeV2_take_declared bs⟩
  · rw [encodeV2_length, hbs]
    rfl
  · rw [declaredV2, (encodeV2_slices e).2.1,
      decInt32_encInt32 _ (by rw [hbs]; decide) (by rw [hbs]; decide)]

/-- Witness for `v2_bytesize_contract` at a concrete legal event and a byte
string that extends the 24-byte encoding with trailing junk the decoder
must ignore. -/
theorem v2_bytesize_contract_witness :
    LegalV2 witnessEventV2 ∧
    witnessEventV2.byteSize = 16 ∧
    ((encodeV2 witnessEventV2).length : Int) = 8 + witnessEventV2.byteSize ∧
    declaredV2 (encodeV2 witnessEventV2) = witnessEventV2.byteSize.toNat ∧
    decodeV2 (encodeV2 witnessEventV2 ++ [0xDE, 0xAD, 0xBE, 0xEF]) =
      decodeV2 ((encodeV2 witnessEventV2 ++ [0xDE, 0xAD, 0xBE, 0xEF]).take
        (8 + declaredV2 (encodeV2 witnessEventV2 ++ [0xDE, 0xAD, 0xBE, 0xEF]))) :=
  ⟨by decide,
   v2_bytesize_contract witnessEventV2
     (encodeV2 witnessEventV2 ++ [0xDE, 0xAD, 0xBE, 0xEF]) (by decide)⟩

/-- C7: in any single catalog snapshot satisfying the producer obligation of
`kIsDefault`, the number of variations whose flags have `kIsDefault` set is
0 or 1, never more. -/
theorem default_flag_at_most_once (s : List CatalogNode)
    (h : AtMostOneDefault s) :
    defaultCount s = 0 ∨ defaultCount s = 1 := by
  induction s with
  | nil => left; rfl
  | cons a t ih =>
    rw [AtMostOneDefault, List.pairwise_cons] at h
    by_cases ha : isDefaultVariation a = true
    · right
      have hnone : ∀ b ∈ t, ¬ isDefaultVariation b = true := by
        intro b hb hdb
        exact h.1 b hb ⟨ha, hdb⟩
      have : t.filter isDefaultVariation = [] := by
        rw [List.filter_eq_nil_iff]
        intro b hb
        simp only [Bool.not_eq_true]
        exact Bool.not_eq_true _ |>.mp (hnone b hb)
      rw [defaultCount, List.filter_cons_of_pos ha, List.length_cons, this]
      rfl
    · have heq : defaultCount (a :: t) = defaultCount t := by
        rw [defaultCount, defaultCount,
          List.filter_cons_of_neg (by simpa using ha)]
      rw [heq]
      exact ih h.2

/-- Witness for `default_flag_at_most_once` on `witnessSnapshot`, whose
default-flag count is exactly 1. -/
theorem default_flag_at_most_once_witness :
    AtMostOneDefault witnessSnapshot ∧
    (defaultCount witnessSnapshot = 0 ∨ defaultCount witnessSnapshot = 1) ∧
    defaultCount witnessSnapshot = 1 :=
  ⟨by decide, default_flag_at_most_once witnessSnapshot (by decide), by decide⟩

theorem builderStep_depth_nonneg (s : CatalogBuilderState)
    (c : CatalogBuilderCall) (h : 0 ≤ s.depth) : 0 ≤ (builderStep s c).depth := by
  cases c with
  | addVariation d => exact h
  | beginFolder f => dsimp only [builderStep]; omega
  | endFolder =>
    dsimp only [builderStep]
    split
    · exact h
    · dsimp only; omega
  | setPresetInfo i => exact h

theorem builderRun_depth_nonneg_from (s : CatalogBuilderState)
    (calls : List CatalogBuilderCall) (h : 0 ≤ s.depth) :
    0 ≤ (calls.foldl builderStep s).depth := by
  induction calls generalizing s with
  | nil => exact h
  | cons c rest ih =>
    exact ih (builderStep s c) (builderStep_depth_nonneg s c h)

/-- C8: across every sequence of builder calls the folder-nesting depth
stays nonnegative, and an `endFolder` arriving with no open folder is
rejected as a contract violation without modifying the nodes (or the preset
info) accumulated before it. -/
theorem folder_depth_never_negative (calls : List CatalogBuilderCall)
    (s : CatalogBuilderState) (hs : s.depth = 0) :
    0 ≤ (builderRun calls).depth ∧
    (builderStep s .endFolder).nodes = s.nodes ∧
    (builderStep s .endFolder).presetInfo = s.presetInfo ∧
    (builderStep s .endFolder).contractViolation = true := by
  refine ⟨builderRun_depth_nonneg_from CatalogBuilderState.init calls le_rfl,
    ?_, ?_, ?_⟩ <;>
  · dsimp only [builderStep]
    rw [if_pos (by omega)]

/-- Witness for `folder_depth_never_negative`: a run that opens one folder,
closes it, and then receives one unmatched `endFolder`; the depth stays
nonnegative and the stray `endFolder`, applied to a depth-0 state holding
one variation node, is rejected without touching the node list. -/
theorem folder_depth_never_negative_witness :
    ((⟨[CatalogNode.variation SoundVariationData.mkDefault], none, 0, false⟩ :
        CatalogBuilderState)).depth = 0 ∧
    0 ≤ (builderRun [CatalogBuilderCall.beginFolder
        { title := [], color := 0, flags := 0 },
      CatalogBuilderCall.endFolder, CatalogBuilderCall.endFolder]).depth ∧
    (builderStep (⟨[CatalogNode.variation SoundVariationData.mkDefault],
        none, 0, false⟩ : CatalogBuilderState) .endFolder).nodes =
      [CatalogNode.variation SoundVariationData.mkDefault] ∧
    (builderStep (⟨[CatalogNode.variation SoundVariationData.mkDefault],
        none, 0, false⟩ : CatalogBuilderState) .endFolder).contractViolation =
      true :=
  ⟨rfl,
   (folder_depth_never_negative
     [CatalogBuilderCall.beginFolder { title := [], color := 0, flags := 0 },
      CatalogBuilderCall.endFolder, CatalogBuilderCall.endFolder]
     (⟨[CatalogNode.variation SoundVariationData.mkDefault], none, 0, false⟩ :
       CatalogBuilderState) rfl).1,
   (folder_depth_never_negative
     [CatalogBuilderCall.beginFolder { title := [], color := 0, flags := 0 },
      CatalogBuilderCall.endFolder, CatalogBuilderCall.endFolder]
     (⟨[CatalogNode.variation SoundVariationData.mkDefault], none, 0, false⟩ :
       CatalogBuilderState) rfl).2.1,
   (folder_depth_never_negative
     [CatalogBuilderCall.beginFolder { title := [], color := 0, flags := 0 },
      CatalogBuilderCall.endFolder, CatalogBuilderCall.endFolder]
     (⟨[CatalogNode.variation SoundVariationData.mkDefault], none, 0, false⟩ :
       CatalogBuilderState) rfl).2.2.2⟩

end Presonus
